import Mathlib

/-!
Shallow embedding of the review-aggregation and media-lifecycle workflow of
the haochapchap backend (Express + Mongoose controllers).

The embedded handlers are:
* `createNewReview`  — PUT /create-new-review   (product controller, src/unnamed/part_000)
* `createProduct`    — POST /create-product     (product controller, src/unnamed/part_000)
* `parseMediaArray`, `createProductParsed`
                     — POST /create-product     (media-upload variant, src/controller/publicReview.js)
* `voteHelpful`      — POST /vote-helpful       (src/controller/publicReview.js)
* `deleteShopProduct`— DELETE /delete-shop-product/:id (src/unnamed/part_000)
* `deleteShopEvent`  — DELETE /delete-shop-event/:id  (src/controller/event.js)

External collaborators (MongoDB lookups, Cloudinary upload/destroy) are passed
in as explicit functions; JavaScript numbers are modelled as rationals and
request-body values as the inductive `JSVal`.
-/

namespace Haochapchap

/-- A JavaScript value as it can appear in a JSON request body:
`undefined`, `null`, booleans, numbers (modelled as rationals),
strings, arrays and objects. -/
inductive JSVal where
  | undefined : JSVal
  | null : JSVal
  | bool : Bool → JSVal
  | num : ℚ → JSVal
  | str : String → JSVal
  | arr : List JSVal → JSVal
  | obj : List (String × JSVal) → JSVal

/-- JavaScript truthiness test (`!v` is `true` exactly when `falsy v`):
`undefined`, `null`, `false`, `0` and `""` are falsy. -/
def falsy : JSVal → Bool
  | .undefined => true
  | .null => true
  | .bool b => !b
  | .num q => q == 0
  | .str s => s == ""
  | .arr _ => false
  | .obj _ => false

/-- The JSON envelope a handler sends back: `success` flag, HTTP status and
the human-readable message (`ErrorHandler(message, status)` on failure). -/
structure Resp where
  success : Bool
  status : Nat
  message : String
deriving DecidableEq

/-- Error response, `next(new ErrorHandler(msg, st))`. -/
def errResp (st : Nat) (msg : String) : Resp := ⟨false, st, msg⟩

/-- A success response `res.status(st).json({success: true, message: msg})`. -/
def okResp (st : Nat) (msg : String) : Resp := ⟨true, st, msg⟩

/-- Hexadecimal digit test, used by the ObjectId validity model. -/
def isHexDigitChar (c : Char) : Bool :=
  c.isDigit || ("abcdefABCDEF".toList.contains c)

/-- Modelled from the mongoose builtin `mongoose.Types.ObjectId.isValid`
(the library is external to the repository): a string is a valid ObjectId
when it is a 24-character hexadecimal string. -/
def isValidObjectId (s : String) : Bool :=
  s.length == 24 && s.toList.all isHexDigitChar

/-- One embedded product review: `{user, rating, comment, productId, createdAt}`
as pushed by the create-new-review handler. Timestamps are modelled as `Nat`. -/
structure Review where
  user : String
  rating : ℚ
  comment : String
  productId : String
  createdAt : Nat
deriving DecidableEq

/-- A stored media descriptor `{public_id, url}` as produced by Cloudinary. -/
structure MediaLink where
  public_id : String
  url : String
deriving DecidableEq

/-- The slice of a Product document the embedded handlers read and write:
its review list, the aggregated `ratings` field and the media list. -/
structure Product where
  reviews : List Review
  ratings : ℚ
  images : List MediaLink
deriving DecidableEq

/-- One line item of an order's cart. `productId` is `none` when the field is
absent on the raw document (the handler guards with `item && item.productId`). -/
structure CartItem where
  productId : Option String
  isReviewed : Bool
deriving DecidableEq

/-- The slice of an Order document the review handler touches. -/
structure Order where
  cart : List CartItem
deriving DecidableEq

/-- The cart predicate of create-new-review:
`item && item.productId && item.productId.toString() === productId`
(a missing or empty `productId` field is falsy and never matches). -/
def cartMatches (pid : String) (item : CartItem) : Bool :=
  match item.productId with
  | none => false
  | some s => !(s == "") && s == pid

/-- The in-place mutation of the review found by
`product.reviews.find(rev => rev?.user?.toString() === user.toString())`:
the first review by `user` gets its rating, comment and createdAt overwritten. -/
def updateFirstReview (u : String) (r : ℚ) (comment : String) (now : Nat) :
    List Review → List Review
  | [] => []
  | rev :: revs =>
    if rev.user == u then
      { rev with rating := r, comment := comment, createdAt := now } :: revs
    else rev :: updateFirstReview u r comment now revs

/-- Total of the stored ratings,
`product.reviews.reduce((sum, review) => sum + review.rating, 0)`. -/
def totalRating (revs : List Review) : ℚ :=
  revs.foldl (fun sum review => sum + review.rating) 0

/-- The `$set cart.$[elem].isReviewed = true` update with
`arrayFilters: [{"elem.productId": ObjectId(productId)}]`: every cart line
whose productId equals the reviewed product is flagged reviewed. -/
def markReviewed (pid : String) (o : Order) : Order :=
  ⟨o.cart.map fun item =>
    if item.productId == some pid then { item with isReviewed := true } else item⟩

/-- Full outcome of one create-new-review request: the response sent and the
post-state of the product and order documents (unchanged on failure). -/
structure SubmitResult where
  resp : Resp
  product : Option Product
  order : Option Order
deriving DecidableEq

/-- The success path of create-new-review once all validations passed:
upsert the review by reviewer identity, then recompute
`ratings = totalRating / reviews.length`, then flag the order line. -/
def submitCore (r : ℚ) (comment : String) (pid : String) (u : String) (now : Nat)
    (p : Product) (o : Order) : Product × Order :=
  let reviews :=
    if p.reviews.any (fun rev => rev.user == u) then
      updateFirstReview u r comment now p.reviews
    else
      p.reviews ++ [⟨u, r, comment, pid, now⟩]
  (⟨reviews, totalRating reviews / (reviews.length : ℚ), p.images⟩, markReviewed pid o)

/-- PUT /create-new-review (src/unnamed/part_000, lines 149–237).
`rating` is the raw body value; `product?` and `order?` are the results of
`Product.findById(productId)` and `Order.findById(orderId)`. -/
def createNewReview (rating : JSVal) (comment : String) (productId orderId : String)
    (user : String) (now : Nat) (product? : Option Product) (order? : Option Order) :
    SubmitResult :=
  if !(isValidObjectId productId && isValidObjectId orderId) then
    ⟨errResp 400 "Invalid product or order ID", product?, order?⟩
  else
    match rating with
    | .num r =>
      if r < 1 || r > 5 then
        ⟨errResp 400 "Rating must be a number between 1 and 5", product?, order?⟩
      else
        match product? with
        | none => ⟨errResp 404 "Product not found", product?, order?⟩
        | some p =>
          match order? with
          | none => ⟨errResp 404 "Order not found", product?, order?⟩
          | some o =>
            if o.cart.any (cartMatches productId) then
              let st := submitCore r comment productId user now p o
              ⟨okResp 200 "Reviewed successfully!", some st.1, some st.2⟩
            else
              ⟨errResp 400 "Product not found in order", product?, order?⟩
    | _ => ⟨errResp 400 "Rating must be a number between 1 and 5", product?, order?⟩

/-- The image-field normalization of POST /create-product
(src/unnamed/part_000, lines 34–41): a bare string becomes a one-element
array holding the raw string, an array is taken as-is, anything else
(absent, object, number, …) yields the empty list. -/
def normalizeImages : JSVal → List JSVal
  | .str s => [.str s]
  | .arr xs => xs
  | _ => []

/-- The sequential Cloudinary upload loop of create-product: each entry is
uploaded in order; the first failure aborts the whole loop (`none`).
`upload` models `cloudinary.v2.uploader.upload`, returning `none` on a
thrown transport/service error. -/
def uploadAll (upload : JSVal → Option MediaLink) : List JSVal → Option (List MediaLink)
  | [] => some []
  | img :: imgs =>
    match upload img with
    | none => none
    | some link => (uploadAll upload imgs).map (fun links => link :: links)

/-- Blank-location guard `!location || location.trim() === ""` of the create handlers:
true exactly when the string is empty or all-whitespace (the model of
JavaScript `String.prototype.trim` yielding the empty string). -/
def blankString (s : String) : Bool :=
  s.data.all (fun c => c == ' ' || c == '\t' || c == '\n' || c == '\r')

/-- Outcome of one create-product request: the response and the persisted
product record, if any (`Product.create` is reached only on full success). -/
structure CreateResult where
  resp : Resp
  created : Option Product
deriving DecidableEq

/-- POST /create-product (src/unnamed/part_000, lines 14–79).
`shop?` is the result of `Shop.findById(shopId)` (its fields are irrelevant
to the claims, so it is `Option Unit`); `upload` is the Cloudinary adapter. -/
def createProduct (location shopId : String) (shop? : Option Unit) (images : JSVal)
    (upload : JSVal → Option MediaLink) : CreateResult :=
  if blankString location then ⟨errResp 400 "Product location is required", none⟩
  else if shopId == "" then ⟨errResp 400 "Shop ID is required", none⟩
  else
    match shop? with
    | none => ⟨errResp 400 "Shop Id is invalid!", none⟩
    | some _ =>
      match uploadAll upload (normalizeImages images) with
      | none => ⟨errResp 500 "Image upload failed", none⟩
      | some links => ⟨okResp 201 "", some ⟨[], 0, links⟩⟩

/-! ### A model of the JavaScript `JSON.parse` builtin

`JSON.parse` is a language builtin, external to the repository; the
definitions below model it over the JSON grammar (null, true, false,
numbers, strings, arrays, objects), with string escapes simplified to a
single-character table (no `\u` code points). Any input the grammar
rejects yields `none`, modelling a thrown `SyntaxError`. -/

/-- Left curly brace character (written via its code point). -/
def lbraceChar : Char := Char.ofNat 123

/-- Right curly brace character (written via its code point). -/
def rbraceChar : Char := Char.ofNat 125

/-- Drop leading JSON whitespace. -/
def skipWs : List Char → List Char
  | [] => []
  | c :: cs => if c == ' ' || c == '\t' || c == '\n' || c == '\r' then skipWs cs else c :: cs

/-- Expect a literal character sequence (e.g. the tail of `null`). -/
def dropLit : List Char → List Char → Option (List Char)
  | [], cs => some cs
  | l :: ls, c :: cs => if c == l then dropLit ls cs else none
  | _ :: _, [] => none

/-- Simplified JSON string escape table. -/
def escChar (c : Char) : Char :=
  if c == 'n' then '\n'
  else if c == 't' then '\t'
  else if c == 'r' then '\r'
  else if c == 'b' then Char.ofNat 8
  else if c == 'f' then Char.ofNat 12
  else c

/-- Parse the body of a JSON string after the opening quote; returns the
content and the remainder after the closing quote. -/
def parseStringChars : List Char → Option (List Char × List Char)
  | [] => none
  | c :: rest =>
    if c == '"' then some ([], rest)
    else if c == '\\' then
      match rest with
      | [] => none
      | e :: rest2 =>
        match parseStringChars rest2 with
        | some (s, r) => some (escChar e :: s, r)
        | none => none
    else
      match parseStringChars rest with
      | some (s, r) => some (c :: s, r)
      | none => none

/-- Split off leading decimal digits. -/
def splitDigits : List Char → List Char × List Char
  | [] => ([], [])
  | c :: cs =>
    if c.isDigit then
      let (ds, r) := splitDigits cs
      (c :: ds, r)
    else ([], c :: cs)

/-- Numeric value of a digit string. -/
def digitsVal (ds : List Char) : Nat :=
  ds.foldl (fun n c => n * 10 + (c.toNat - 48)) 0

/-- Parse the fractional part after a decimal point. -/
def parseFrac (cs : List Char) : Option (ℚ × List Char) :=
  let (ds, r) := splitDigits cs
  if ds.isEmpty then none
  else some ((digitsVal ds : ℚ) / ((10 : ℚ) ^ ds.length), r)

/-- Parse the exponent after `e`/`E`. -/
def parseExp (cs : List Char) : Option (ℤ × List Char) :=
  let (sgn, cs1) : ℤ × List Char :=
    match cs with
    | c :: r => if c == '+' then (1, r) else if c == '-' then (-1, r) else (1, cs)
    | [] => (1, cs)
  let (ds, r) := splitDigits cs1
  if ds.isEmpty then none else some (sgn * (digitsVal ds : ℤ), r)

/-- Parse a JSON number (sign, integer part, optional fraction and exponent). -/
def parseNumberT (cs : List Char) : Option (ℚ × List Char) := do
  let (neg, cs1) :=
    match cs with
    | c :: r => if c == '-' then (true, r) else (false, cs)
    | [] => (false, cs)
  let (ds, cs2) := splitDigits cs1
  if ds.isEmpty then none
  else
    let base : ℚ := (digitsVal ds : ℚ)
    let (m, cs3) ←
      match cs2 with
      | c :: r =>
        if c == '.' then
          match parseFrac r with
          | some (f, r2) => some (base + f, r2)
          | none => (none : Option (ℚ × List Char))
        else some (base, cs2)
      | [] => some (base, cs2)
    let (q, cs4) ←
      match cs3 with
      | c :: r =>
        if c == 'e' || c == 'E' then
          match parseExp r with
          | some (e, r2) => some (m * (10 : ℚ) ^ e, r2)
          | none => (none : Option (ℚ × List Char))
        else some (m, cs3)
      | [] => some (m, cs3)
    some (if neg then -q else q, cs4)

mutual

/-- Parse one JSON value; `fuel` bounds the recursion depth and is chosen
larger than the input length by the top-level entry point. -/
def parseValue : Nat → List Char → Option (JSVal × List Char)
  | 0, _ => none
  | fuel + 1, cs =>
    match skipWs cs with
    | [] => none
    | c :: rest =>
      if c == 'n' then
        match dropLit ['u', 'l', 'l'] rest with
        | some r => some (.null, r)
        | none => none
      else if c == 't' then
        match dropLit ['r', 'u', 'e'] rest with
        | some r => some (.bool true, r)
        | none => none
      else if c == 'f' then
        match dropLit ['a', 'l', 's', 'e'] rest with
        | some r => some (.bool false, r)
        | none => none
      else if c == '"' then
        match parseStringChars rest with
        | some (s, r) => some (.str (String.mk s), r)
        | none => none
      else if c == '[' then
        match skipWs rest with
        | c2 :: r2 =>
          if c2 == ']' then some (.arr [], r2)
          else
            match parseElems fuel (c2 :: r2) with
            | some (vs, r) => some (.arr vs, r)
            | none => none
        | [] => none
      else if c == lbraceChar then
        match skipWs rest with
        | c2 :: r2 =>
          if c2 == rbraceChar then some (.obj [], r2)
          else
            match parseMembers fuel (c2 :: r2) with
            | some (ms, r) => some (.obj ms, r)
            | none => none
        | [] => none
      else if c.isDigit || c == '-' then
        match parseNumberT (c :: rest) with
        | some (q, r) => some (.num q, r)
        | none => none
      else none

/-- Parse the non-empty element list of a JSON array (up to `]`). -/
def parseElems : Nat → List Char → Option (List JSVal × List Char)
  | 0, _ => none
  | fuel + 1, cs =>
    match parseValue fuel cs with
    | none => none
    | some (v, rest) =>
      match skipWs rest with
      | c :: r =>
        if c == ',' then
          match parseElems fuel r with
          | some (vs, r2) => some (v :: vs, r2)
          | none => none
        else if c == ']' then some ([v], r)
        else none
      | [] => none

/-- Parse the non-empty member list of a JSON object (up to the closing brace). -/
def parseMembers : Nat → List Char → Option (List (String × JSVal) × List Char)
  | 0, _ => none
  | fuel + 1, cs =>
    match skipWs cs with
    | [] => none
    | c :: rest =>
      if c == '"' then
        match parseStringChars rest with
        | none => none
        | some (k, r1) =>
          match skipWs r1 with
          | [] => none
          | c2 :: r2 =>
            if c2 == ':' then
              match parseValue fuel r2 with
              | none => none
              | some (v, r3) =>
                match skipWs r3 with
                | [] => none
                | c3 :: r4 =>
                  if c3 == ',' then
                    match parseMembers fuel r4 with
                    | some (ms, r5) => some ((String.mk k, v) :: ms, r5)
                    | none => none
                  else if c3 == rbraceChar then some ([(String.mk k, v)], r4)
                  else none
            else none
      else none

end

/-- Model of `JSON.parse s`: parse one value and require only trailing
whitespace after it; `none` models a thrown `SyntaxError`. -/
def jsonParse (s : String) : Option JSVal :=
  match parseValue (s.length + 2) s.data with
  | some (v, rest) => if (skipWs rest).isEmpty then some v else none
  | none => none

/-- Function `parseMediaArray` of POST /create-product
(src/controller/publicReview.js variant, lines 191–202): falsy input gives
`[]`; a string is `JSON.parse`d, returning `[]` when parsing throws; an
array passes through; anything else gives `[]`. The JS function returns
whatever `JSON.parse` produced, hence the `JSVal` result type. -/
def parseMediaArray (media : JSVal) : JSVal :=
  if falsy media then .arr []
  else
    match media with
    | .str s =>
      match jsonParse s with
      | some v => v
      | none => .arr []
    | .arr xs => .arr xs
    | _ => .arr []

/-- JavaScript property access `v[key]` on a parsed JSON value: `undefined`
unless `v` is an object carrying the key (last duplicate wins, as in
`JSON.parse`). -/
def getField (v : JSVal) (key : String) : JSVal :=
  match v with
  | .obj fields =>
    match fields.reverse.find? (fun kv => kv.1 == key) with
    | some kv => kv.2
    | none => .undefined
  | _ => .undefined

/-- Descriptor check `!img.public_id || !img.url` of the media-upload
create-product variant. -/
def descriptorOk (v : JSVal) : Bool :=
  !(falsy (getField v "public_id")) && !(falsy (getField v "url"))

/-- Outcome of the media-upload create-product variant: the response and,
on success, the stored `images` and `videos` descriptor lists. -/
structure CreateParsedResult where
  resp : Resp
  created : Option (List JSVal × List JSVal)

/-- POST /create-product (src/controller/publicReview.js variant, lines
171–238): normalizes `images`/`videos` through `parseMediaArray`, validates
each descriptor's `public_id` and `url`, then persists. If `parseMediaArray`
yields a non-array value (possible only when `JSON.parse` returned a
non-array), the `for…of` iteration over it fails; that edge is modelled as a
500 response and is outside every claim. -/
def createProductParsed (location shopId : String) (shop? : Option Unit)
    (images videos : JSVal) : CreateParsedResult :=
  if blankString location then ⟨errResp 400 "Product location is required", none⟩
  else if shopId == "" then ⟨errResp 400 "Shop ID is required", none⟩
  else
    match shop? with
    | none => ⟨errResp 400 "Invalid Shop ID", none⟩
    | some _ =>
      match parseMediaArray images, parseMediaArray videos with
      | .arr imgs, .arr vids =>
        if imgs.all descriptorOk then
          if vids.all descriptorOk then ⟨okResp 201 "", some (imgs, vids)⟩
          else ⟨errResp 400 "Invalid video data format", none⟩
        else ⟨errResp 400 "Invalid image data format", none⟩
      | _, _ => ⟨errResp 500 "Non-iterable media value", none⟩

/-- The stored fields of one PublicReview document the vote handler touches.
`helpfulUp`/`helpfulDown` are `Option Nat` because the raw document may lack
the counter (the handler guards with `review.helpfulUp || 0`). -/
structure PublicReviewDoc where
  name : String
  rating : ℚ
  comment : String
  helpfulUp : Option Nat
  helpfulDown : Option Nat
deriving DecidableEq

/-- Direction check `["up","down"].includes(vote)` (strict equality, so only
those two string values pass). -/
def isUpDownVote : JSVal → Bool
  | .str s => s == "up" || s == "down"
  | _ => false

/-- Outcome of one vote-helpful request: the response, the review document
as saved (if any write happened), and whether `PublicReview.findById` ran. -/
structure VoteResult where
  resp : Resp
  saved : Option PublicReviewDoc
  lookedUp : Bool
deriving DecidableEq

/-- POST /vote-helpful (src/controller/publicReview.js, lines 42–66).
Validation (`!reviewId || !vote || !["up","down"].includes(vote)`) runs
before the database lookup; `findById` models `PublicReview.findById`. -/
def voteHelpful (reviewId vote : JSVal) (findById : JSVal → Option PublicReviewDoc) :
    VoteResult :=
  if falsy reviewId || falsy vote || !(isUpDownVote vote) then
    ⟨errResp 400 "Invalid vote data", none, false⟩
  else
    match findById reviewId with
    | none => ⟨errResp 404 "Review not found", none, true⟩
    | some review =>
      let saved :=
        match vote with
        | .str s =>
          if s == "up" then { review with helpfulUp := some (review.helpfulUp.getD 0 + 1) }
          else if s == "down" then
            { review with helpfulDown := some (review.helpfulDown.getD 0 + 1) }
          else review
        | _ => review
      ⟨okResp 200 "Vote recorded", some saved, true⟩

/-- The per-descriptor Cloudinary destroy loop of the delete handlers: each
descriptor is attempted in order (recording success/failure of the external
call), and a failure never stops the loop — the `catch` only logs. -/
def destroyAll (destroyOk : String → Bool) : List MediaLink → List (String × Bool)
  | [] => []
  | l :: ls => (l.public_id, destroyOk l.public_id) :: destroyAll destroyOk ls

/-- Outcome of one delete request: the response, the list of attempted
external deletions (public_id, call succeeded) and whether the entity
record itself was removed. -/
structure DeleteResult where
  resp : Resp
  attempts : List (String × Bool)
  removed : Bool
deriving DecidableEq

/-- DELETE /delete-shop-product/:id (src/unnamed/part_000, lines 99–129):
look up the product, best-effort destroy every image, remove the record,
report success. `destroyOk` models whether each external destroy call
succeeds. -/
def deleteShopProduct (product? : Option Product) (destroyOk : String → Bool) :
    DeleteResult :=
  match product? with
  | none => ⟨errResp 404 "Product not found with this id", [], false⟩
  | some p => ⟨okResp 200 "Product deleted successfully!", destroyAll destroyOk p.images, true⟩

/-- The slice of an Event document the delete handler touches. -/
structure EventDoc where
  images : List MediaLink
deriving DecidableEq

/-- DELETE /delete-shop-event/:id (src/controller/event.js, lines 126–153):
same best-effort cascading shape as the product delete. -/
def deleteShopEvent (event? : Option EventDoc) (destroyOk : String → Bool) :
    DeleteResult :=
  match event? with
  | none => ⟨errResp 404 "Event not found with this ID", [], false⟩
  | some e => ⟨okResp 200 "Event deleted successfully!", destroyAll destroyOk e.images, true⟩

/-! ### Concrete example data used by witnesses and counterexamples -/

/-- A valid 24-hex-character product id. -/
def exPid : String := "aaaaaaaaaaaaaaaaaaaaaaaa"

/-- A valid 24-hex-character order id. -/
def exOid : String := "bbbbbbbbbbbbbbbbbbbbbbbb"

/-- A product with no reviews yet. -/
def exProd0 : Product := ⟨[], 0, []⟩

/-- An order whose cart contains the example product. -/
def exOrd0 : Order := ⟨[⟨some exPid, false⟩]⟩

/-- State after reviewer u1 submits rating 4. -/
def exR1 : SubmitResult :=
  createNewReview (.num 4) "a" exPid exOid "u1" 10 (some exProd0) (some exOrd0)

/-- State after reviewer u2 then submits rating 2. -/
def exR2 : SubmitResult :=
  createNewReview (.num 2) "b" exPid exOid "u2" 11 exR1.product exR1.order

/-- The rational 4.5 = 9/2, written as an explicit `Rat` value so that the
kernel can evaluate the handler on it. -/
def ratNineHalves : ℚ := ⟨9, 2, by decide, by decide⟩

/-- The varying inputs of one create-new-review request in a sequence of
submissions by a fixed reviewer for a fixed product and order. -/
structure SubmitCall where
  rating : ℚ
  comment : String
  now : Nat
deriving DecidableEq

/-- The in-place edit a repeat submission performs on an existing review:
rating, comment and createdAt are overwritten, identity fields are kept. -/
def applyCall (rev : Review) (c : SubmitCall) : Review :=
  { rev with rating := c.rating, comment := c.comment, createdAt := c.now }

/-- Run a sequence of create-new-review requests by one reviewer for one
product/order pair, threading the stored product and order states through
the handler (a failing request leaves the state unchanged). -/
def runSubmits (pid oid u : String) : Product × Order → List SubmitCall → Product × Order
  | st, [] => st
  | st, c :: cs =>
    let res := createNewReview (.num c.rating) c.comment pid oid u c.now
      (some st.1) (some st.2)
    match res.product, res.order with
    | some p', some o' => runSubmits pid oid u (p', o') cs
    | _, _ => runSubmits pid oid u st cs

/-! ### Helper lemmas -/

theorem totalRating_foldl (revs : List Review) (init : ℚ) :
    revs.foldl (fun sum review => sum + review.rating) init
      = init + (revs.map Review.rating).sum := by
  induction revs generalizing init with
  | nil => simp
  | cons rev revs ih =>
    simp [List.foldl_cons, ih, add_assoc]

theorem totalRating_eq_sum (revs : List Review) :
    totalRating revs = (revs.map Review.rating).sum := by
  simp [totalRating, totalRating_foldl]

theorem destroyAll_attempts_all (destroyOk : String → Bool) (ls : List MediaLink) :
    (destroyAll destroyOk ls).map Prod.fst = ls.map MediaLink.public_id := by
  induction ls with
  | nil => rfl
  | cons l ls ih => simp [destroyAll, ih]

theorem uploadAll_none_of_mem (upload : JSVal → Option MediaLink) (l : List JSVal)
    (h : ∃ img ∈ l, upload img = none) : uploadAll upload l = none := by
  induction l with
  | nil => simp at h
  | cons img imgs ih =>
    rcases h with ⟨x, hx, hfail⟩
    rcases List.mem_cons.mp hx with rfl | hx
    · simp [uploadAll, hfail]
    · unfold uploadAll
      cases hup : upload img with
      | none => rfl
      | some link => simp [ih ⟨x, hx, hfail⟩]

theorem createNewReview_ok (comment pid oid u : String) (now : Nat) (r : ℚ)
    (p : Product) (o : Order)
    (hpid : isValidObjectId pid = true) (hoid : isValidObjectId oid = true)
    (hr1 : 1 ≤ r) (hr5 : r ≤ 5) (hcart : o.cart.any (cartMatches pid) = true) :
    createNewReview (.num r) comment pid oid u now (some p) (some o)
      = ⟨okResp 200 "Reviewed successfully!",
         some (submitCore r comment pid u now p o).1,
         some (submitCore r comment pid u now p o).2⟩ := by
  have hrange : (decide (r < 1) || decide (r > 5)) = false := by
    simp [not_lt.mpr hr1, not_lt.mpr hr5]
  simp [createNewReview, hpid, hoid, hrange, hcart]

theorem createNewReview_success_shape (rating : JSVal) (comment pid oid u : String)
    (now : Nat) (p? : Option Product) (o? : Option Order)
    (h : (createNewReview rating comment pid oid u now p? o?).resp.success = true) :
    ∃ (r : ℚ) (p : Product) (o : Order),
      rating = .num r ∧ 1 ≤ r ∧ r ≤ 5 ∧ p? = some p ∧ o? = some o
      ∧ createNewReview rating comment pid oid u now p? o?
          = ⟨okResp 200 "Reviewed successfully!",
             some (submitCore r comment pid u now p o).1,
             some (submitCore r comment pid u now p o).2⟩ := by
  unfold createNewReview at h
  split at h
  next hvalid => simp [errResp] at h
  next hvalid =>
    have hids : isValidObjectId pid = true ∧ isValidObjectId oid = true := by
      rcases hp : isValidObjectId pid <;> rcases ho : isValidObjectId oid <;>
        simp_all
    split at h
    next r =>
      split at h
      next hrange => simp [errResp] at h
      next hrange =>
        have hr15 : ¬(r < 1) ∧ ¬(r > 5) := by
          simpa [not_or] using hrange
        split at h
        next => simp [errResp] at h
        next p =>
          split at h
          next => simp [errResp] at h
          next o =>
            split at h
            next hcart =>
              exact ⟨r, p, o, rfl, not_lt.mp hr15.1, not_lt.mp hr15.2, rfl, rfl,
                createNewReview_ok comment pid oid u now r p o hids.1 hids.2
                  (not_lt.mp hr15.1) (not_lt.mp hr15.2) hcart⟩
            next hcart => simp [errResp] at h
    next hnum => simp [errResp] at h

theorem cartMatches_mark (pid : String) (item : CartItem) :
    cartMatches pid
        (if item.productId == some pid then { item with isReviewed := true } else item)
      = cartMatches pid item := by
  by_cases h : item.productId == some pid <;> simp [h, cartMatches]

theorem markReviewed_any (pid : String) (o : Order) :
    (markReviewed pid o).cart.any (cartMatches pid) = o.cart.any (cartMatches pid) := by
  rcases o with ⟨cart⟩
  simp only [markReviewed]
  induction cart with
  | nil => rfl
  | cons item cart ih =>
    simp only [List.map_cons, List.any_cons, cartMatches_mark]
    rw [ih]

theorem submitCore_snd (r : ℚ) (c pid u : String) (now : Nat) (p : Product) (o : Order) :
    (submitCore r c pid u now p o).2 = markReviewed pid o := rfl

theorem any_of_filter_singleton (l : List Review) (u : String) (rev : Review)
    (h : l.filter (fun x => x.user == u) = [rev]) :
    l.any (fun x => x.user == u) = true := by
  have hm : rev ∈ l.filter (fun x => x.user == u) := by rw [h]; exact List.mem_singleton.mpr rfl
  rcases List.mem_filter.mp hm with ⟨hmem, hp⟩
  exact List.any_eq_true.mpr ⟨rev, hmem, hp⟩

theorem updateFirstReview_filter (u : String) (r : ℚ) (c : String) (now : Nat)
    (l : List Review) (rev : Review)
    (h : l.filter (fun x => x.user == u) = [rev]) :
    (updateFirstReview u r c now l).filter (fun x => x.user == u)
      = [applyCall rev ⟨r, c, now⟩] := by
  induction l with
  | nil => simp at h
  | cons a l ih =>
    rw [List.filter_cons] at h
    unfold updateFirstReview
    by_cases ha : (a.user == u) = true
    · rw [if_pos ha] at h
      obtain ⟨rfl, hnil⟩ : a = rev ∧ l.filter (fun x => x.user == u) = [] := by
        simpa using h
      rw [if_pos ha, List.filter_cons, if_pos ha, hnil]
      rfl
    · rw [if_neg ha] at h
      rw [if_neg ha, List.filter_cons, if_neg ha]
      exact ih h

theorem submitCore_filter_step (r : ℚ) (c pid u : String) (now : Nat)
    (p : Product) (o : Order) (rev : Review)
    (h : p.reviews.filter (fun x => x.user == u) = [rev]) :
    (submitCore r c pid u now p o).1.reviews.filter (fun x => x.user == u)
      = [applyCall rev ⟨r, c, now⟩] := by
  have hany := any_of_filter_singleton p.reviews u rev h
  simp only [submitCore, hany, if_true]
  exact updateFirstReview_filter u r c now p.reviews rev h

theorem submitCore_filter_new (r : ℚ) (c pid u : String) (now : Nat)
    (p : Product) (o : Order)
    (h : p.reviews.filter (fun x => x.user == u) = []) :
    (submitCore r c pid u now p o).1.reviews.filter (fun x => x.user == u)
      = [⟨u, r, c, pid, now⟩] := by
  have hq : ∀ x ∈ p.reviews, ¬((fun x => x.user == u) x = true) := by
    simpa using List.filter_eq_nil_iff.mp h
  have hany : p.reviews.any (fun x => x.user == u) = false := by
    rcases hv : p.reviews.any (fun x => x.user == u) with _ | _
    · rfl
    · obtain ⟨x, hx, hpx⟩ := List.any_eq_true.mp hv
      exact absurd hpx (hq x hx)
  simp only [submitCore, hany, Bool.false_eq_true, if_false]
  rw [List.filter_append, h]
  simp

theorem applyCall_applyCall (rev : Review) (c d : SubmitCall) :
    applyCall (applyCall rev c) d = applyCall rev d := rfl

theorem foldl_applyCall_getLastD (cs : List SubmitCall) (c : SubmitCall) (rev : Review) :
    (c :: cs).foldl applyCall rev = applyCall rev ((c :: cs).getLastD c) := by
  induction cs generalizing c rev with
  | nil => simp [List.foldl]
  | cons c2 cs ih =>
    rw [List.foldl_cons, ih c2 (applyCall rev c), applyCall_applyCall]
    congr 1

theorem getLastD_cons_indep (d x y : SubmitCall) (ds : List SubmitCall) :
    (d :: ds).getLastD x = (d :: ds).getLastD y := by
  simp only [List.getLastD_cons]

theorem runSubmits_filter (pid oid u : String)
    (hpid : isValidObjectId pid = true) (hoid : isValidObjectId oid = true)
    (cs : List SubmitCall) :
    ∀ (p : Product) (o : Order) (rev : Review),
      o.cart.any (cartMatches pid) = true →
      (∀ x ∈ cs, 1 ≤ x.rating ∧ x.rating ≤ 5) →
      p.reviews.filter (fun x => x.user == u) = [rev] →
      ((runSubmits pid oid u (p, o) cs).1.reviews.filter (fun x => x.user == u))
        = [cs.foldl applyCall rev] := by
  induction cs with
  | nil =>
    intro p o rev _ _ h
    simpa [runSubmits] using h
  | cons c cs ih =>
    intro p o rev hcart hr h
    have hok := createNewReview_ok c.comment pid oid u c.now c.rating p o hpid hoid
      (hr c (List.mem_cons_self c cs)).1 (hr c (List.mem_cons_self c cs)).2 hcart
    unfold runSubmits
    rw [hok]
    simp only []
    rw [List.foldl_cons]
    apply ih
    · rw [submitCore_snd, markReviewed_any]
      exact hcart
    · exact fun x hx => hr x (List.mem_cons_of_mem c hx)
    · exact submitCore_filter_step c.rating c.comment pid u c.now p o rev h

/-! ### Claim theorems -/

/-- C1: after every successful create-new-review call, the product's stored
`ratings` field equals the arithmetic mean of the rating values of all
reviews stored on the product after the call. -/
theorem createNewReview_ratings_mean (rating : JSVal) (comment pid oid u : String)
    (now : Nat) (p? : Option Product) (o? : Option Order)
    (h : (createNewReview rating comment pid oid u now p? o?).resp.success = true) :
    ∃ p' : Product,
      (createNewReview rating comment pid oid u now p? o?).product = some p'
      ∧ p'.ratings = (p'.reviews.map Review.rating).sum / (p'.reviews.length : ℚ) := by
  obtain ⟨r, p, o, _, _, _, _, _, heq⟩ :=
    createNewReview_success_shape rating comment pid oid u now p? o? h
  rw [heq]
  refine ⟨(submitCore r comment pid u now p o).1, rfl, ?_⟩
  simp only [submitCore]
  rw [totalRating_eq_sum]

/-- C1 witness: three distinct reviewers submit ratings 4, 2 and 5 for one
product; the third call succeeds, the stored `ratings` is the mean of the
stored review ratings, and that mean is exactly 11/3. -/
theorem createNewReview_ratings_mean_witness :
    (createNewReview (.num 5) "c" exPid exOid "u3" 12 exR2.product exR2.order).resp.success
      = true
    ∧ (∃ p' : Product,
        (createNewReview (.num 5) "c" exPid exOid "u3" 12 exR2.product exR2.order).product
          = some p'
        ∧ p'.ratings = (p'.reviews.map Review.rating).sum / (p'.reviews.length : ℚ))
    ∧ (∃ p' : Product,
        (createNewReview (.num 5) "c" exPid exOid "u3" 12 exR2.product exR2.order).product
          = some p'
        ∧ p'.reviews.map Review.rating = [4, 2, 5] ∧ p'.ratings = 11 / 3) := by
  have hsucc :
      (createNewReview (.num 5) "c" exPid exOid "u3" 12 exR2.product exR2.order).resp.success
        = true := by decide
  obtain ⟨p', hp', hmean⟩ :=
    createNewReview_ratings_mean (.num 5) "c" exPid exOid "u3" 12 exR2.product exR2.order
      hsucc
  have hlist :
      (createNewReview (.num 5) "c" exPid exOid "u3" 12 exR2.product
          exR2.order).product.map (fun p => p.reviews.map Review.rating)
        = some [4, 2, 5] := by decide
  rw [hp'] at hlist
  have hl : p'.reviews.map Review.rating = [4, 2, 5] := by simpa using hlist
  have hlen : p'.reviews.length = 3 := by
    simpa using congrArg List.length hl
  refine ⟨hsucc, ⟨p', hp', hmean⟩, p', hp', hl, ?_⟩
  rw [hmean, hl, hlen]
  norm_num [List.sum_cons, List.sum_nil]

/-- C2: starting from a product with no review by reviewer u, after any
nonempty sequence of successful create-new-review calls by u for that
product, the review list contains exactly one review by u, whose rating,
comment and createdAt are those of the most recent call (a repeat
submission mutates the existing review instead of appending a duplicate). -/
theorem createNewReview_upsert_identity (pid oid u : String) (p : Product) (o : Order)
    (c : SubmitCall) (cs : List SubmitCall)
    (hpid : isValidObjectId pid = true) (hoid : isValidObjectId oid = true)
    (hcart : o.cart.any (cartMatches pid) = true)
    (hfresh : p.reviews.filter (fun x => x.user == u) = [])
    (hr : ∀ x ∈ c :: cs, 1 ≤ x.rating ∧ x.rating ≤ 5) :
    (runSubmits pid oid u (p, o) (c :: cs)).1.reviews.filter (fun x => x.user == u)
      = [⟨u, ((c :: cs).getLastD c).rating, ((c :: cs).getLastD c).comment, pid,
          ((c :: cs).getLastD c).now⟩] := by
  have hok := createNewReview_ok c.comment pid oid u c.now c.rating p o hpid hoid
    (hr c (List.mem_cons_self c cs)).1 (hr c (List.mem_cons_self c cs)).2 hcart
  unfold runSubmits
  rw [hok]
  simp only []
  have hstep := submitCore_filter_new c.rating c.comment pid u c.now p o hfresh
  have hrest := runSubmits_filter pid oid u hpid hoid cs
    (submitCore c.rating c.comment pid u c.now p o).1
    (submitCore c.rating c.comment pid u c.now p o).2
    ⟨u, c.rating, c.comment, pid, c.now⟩
    (by rw [submitCore_snd, markReviewed_any]; exact hcart)
    (fun x hx => hr x (List.mem_cons_of_mem c hx))
    hstep
  rw [hrest]
  cases cs with
  | nil => rfl
  | cons d ds =>
    rw [foldl_applyCall_getLastD ds d ⟨u, c.rating, c.comment, pid, c.now⟩]
    have hcollapse : (c :: d :: ds).getLastD c = (d :: ds).getLastD d := by
      rw [List.getLastD_cons]
      exact getLastD_cons_indep d c d ds
    rw [hcollapse]
    rfl

/-- C2 witness: reviewer u1 submits rating 4 then rating 5 for one product;
afterwards the product holds exactly one review by u1, carrying the second
call's rating, comment and timestamp. -/
theorem createNewReview_upsert_identity_witness :
    (runSubmits exPid exOid "u1" (exProd0, exOrd0)
        [⟨4, "a", 10⟩, ⟨5, "b", 11⟩]).1.reviews.filter (fun x => x.user == "u1")
      = [⟨"u1", 5, "b", exPid, 11⟩] := by
  have h := createNewReview_upsert_identity exPid exOid "u1" exProd0 exOrd0
    ⟨4, "a", 10⟩ [⟨5, "b", 11⟩] (by decide) (by decide) (by decide) (by decide)
    (by intro x hx; fin_cases hx <;> constructor <;> norm_num)
  simpa using h

/-- C3: a rating that is non-numeric, or numeric but outside [1,5], makes
create-new-review fail with a 400 validation error, leaving the stored
product (review list and ratings) and order untouched. -/
theorem createNewReview_invalid_rating_rejected (rating : JSVal)
    (comment pid oid u : String) (now : Nat) (p? : Option Product) (o? : Option Order)
    (h : (∀ r : ℚ, rating ≠ .num r) ∨ ∃ r : ℚ, rating = .num r ∧ (r < 1 ∨ r > 5)) :
    ((createNewReview rating comment pid oid u now p? o?).resp.success = false)
    ∧ ((createNewReview rating comment pid oid u now p? o?).resp.status = 400)
    ∧ ((createNewReview rating comment pid oid u now p? o?).product = p?)
    ∧ ((createNewReview rating comment pid oid u now p? o?).order = o?) := by
  unfold createNewReview
  by_cases hid : (!(isValidObjectId pid && isValidObjectId oid)) = true
  · simp [hid, errResp]
  · rw [if_neg hid]
    rcases h with hnon | ⟨r, rfl, hrange⟩
    · cases rating with
      | num q => exact absurd rfl (hnon q)
      | undefined => simp [errResp]
      | null => simp [errResp]
      | bool b => simp [errResp]
      | str s => simp [errResp]
      | arr xs => simp [errResp]
      | obj fs => simp [errResp]
    · have hc : (decide (r < 1) || decide (r > 5)) = true := by
        rcases hrange with hlt | hgt
        · simp [hlt]
        · simp [hgt]
      simp [hc, errResp]

/-- C3 witness: a string rating and the rating 7 are both rejected with a
400 response and leave the given product and order states untouched. -/
theorem createNewReview_invalid_rating_rejected_witness :
    ((createNewReview (.str "bad") "c" exPid exOid "u1" 0 (some exProd0)
        (some exOrd0)).resp.status = 400
      ∧ (createNewReview (.str "bad") "c" exPid exOid "u1" 0 (some exProd0)
          (some exOrd0)).product = some exProd0)
    ∧ ((createNewReview (.num 7) "c" exPid exOid "u1" 0 (some exProd0)
        (some exOrd0)).resp.status = 400
      ∧ (createNewReview (.num 7) "c" exPid exOid "u1" 0 (some exProd0)
          (some exOrd0)).order = some exOrd0) :=
  ⟨⟨(createNewReview_invalid_rating_rejected (.str "bad") "c" exPid exOid "u1" 0
      (some exProd0) (some exOrd0) (Or.inl (fun r hr => JSVal.noConfusion hr))).2.1,
    (createNewReview_invalid_rating_rejected (.str "bad") "c" exPid exOid "u1" 0
      (some exProd0) (some exOrd0) (Or.inl (fun r hr => JSVal.noConfusion hr))).2.2.1⟩,
   ⟨(createNewReview_invalid_rating_rejected (.num 7) "c" exPid exOid "u1" 0
      (some exProd0) (some exOrd0) (Or.inr ⟨7, rfl, Or.inr (by norm_num)⟩)).2.1,
    (createNewReview_invalid_rating_rejected (.num 7) "c" exPid exOid "u1" 0
      (some exProd0) (some exOrd0) (Or.inr ⟨7, rfl, Or.inr (by norm_num)⟩)).2.2.2⟩⟩

/-- C4: when the named order's cart has no line item for the reviewed
product, an otherwise valid create-new-review call fails with the 400
"Product not found in order" response and leaves the product and order
states untouched. -/
theorem createNewReview_product_not_in_order (comment pid oid u : String) (now : Nat)
    (r : ℚ) (p : Product) (o : Order)
    (hpid : isValidObjectId pid = true) (hoid : isValidObjectId oid = true)
    (hr1 : 1 ≤ r) (hr5 : r ≤ 5)
    (hcart : o.cart.any (cartMatches pid) = false) :
    createNewReview (.num r) comment pid oid u now (some p) (some o)
      = ⟨errResp 400 "Product not found in order", some p, some o⟩ := by
  have hrange : (decide (r < 1) || decide (r > 5)) = false := by
    simp [not_lt.mpr hr1, not_lt.mpr hr5]
  simp [createNewReview, hpid, hoid, hrange, hcart]

/-- C4 witness: an order whose single cart line names a different product
makes the review request fail with "Product not found in order" while the
product and order are returned unchanged. -/
theorem createNewReview_product_not_in_order_witness :
    createNewReview (.num 3) "c" exPid exOid "u1" 0 (some exProd0)
        (some ⟨[⟨some exOid, false⟩]⟩)
      = ⟨errResp 400 "Product not found in order", some exProd0,
         some ⟨[⟨some exOid, false⟩]⟩⟩ :=
  createNewReview_product_not_in_order "c" exPid exOid "u1" 0 3 exProd0
    ⟨[⟨some exOid, false⟩]⟩ (by decide) (by decide) (by norm_num) (by norm_num)
    (by decide)

/-- C5: for every existing product and event with media descriptors, and for
every behavior of the external destroy call (including per-item failure),
the delete handlers attempt the external delete for all descriptors, delete
the entity record, and report overall success; per-item failures never reach
the response. -/
theorem delete_cascades_best_effort (p : Product) (e : EventDoc)
    (okP okE : String → Bool) :
    ((deleteShopProduct (some p) okP).attempts.map Prod.fst
        = p.images.map MediaLink.public_id
      ∧ (deleteShopProduct (some p) okP).removed = true
      ∧ (deleteShopProduct (some p) okP).resp.success = true
      ∧ (deleteShopProduct (some p) okP).resp.status = 200)
    ∧ ((deleteShopEvent (some e) okE).attempts.map Prod.fst
        = e.images.map MediaLink.public_id
      ∧ (deleteShopEvent (some e) okE).removed = true
      ∧ (deleteShopEvent (some e) okE).resp.success = true
      ∧ (deleteShopEvent (some e) okE).resp.status = 200) := by
  refine ⟨⟨?_, rfl, rfl, rfl⟩, ⟨?_, rfl, rfl, rfl⟩⟩
  · simp [deleteShopProduct, destroyAll_attempts_all]
  · simp [deleteShopEvent, destroyAll_attempts_all]

/-- C6: on product creation, a bare (non-JSON) images string is treated as a
one-element list holding the raw string (part_000 normalizer), and an images
string that fails to parse as JSON normalizes to the empty list without
aborting the containing operation (`parseMediaArray` in the media-upload
variant, whose create then succeeds with no media). -/
theorem media_normalization_contract :
    (∀ s : String, normalizeImages (.str s) = [.str s])
    ∧ (∀ s : String, jsonParse s = none → parseMediaArray (.str s) = .arr [])
    ∧ jsonParse "\x7bnot valid json" = none
    ∧ parseMediaArray (.str "\x7bnot valid json") = .arr []
    ∧ normalizeImages (.str "http://x/1.png") = [.str "http://x/1.png"]
    ∧ (createProductParsed "loc" "shop1" (some ())
        (.str "\x7bnot valid json") .undefined).resp.success = true
    ∧ (createProductParsed "loc" "shop1" (some ())
        (.str "\x7bnot valid json") .undefined).created = some ([], []) := by
  refine ⟨fun s => rfl, fun s h => ?_, rfl, rfl, rfl, rfl, rfl⟩
  by_cases hs : s = ""
  · subst hs; rfl
  · simp [parseMediaArray, falsy, hs, h]

/-- C6 witness: the failing-parse branch of `media_normalization_contract`
instantiated at the bare-URL string, and the bare-string branch at "abc". -/
theorem media_normalization_contract_witness :
    parseMediaArray (.str "http://x/1.png") = .arr []
    ∧ normalizeImages (.str "abc") = [.str "abc"] :=
  ⟨media_normalization_contract.2.1 "http://x/1.png" rfl,
   media_normalization_contract.1 "abc"⟩

/-- C7: on product creation (part_000), whenever the upload of any one image
fails, no product record is persisted (first conjunct, with no assumptions on
the rest of the request), and — once the request reaches the upload phase —
the operation fails with the 500 "Image upload failed" response
(second conjunct). -/
theorem createProduct_upload_failure_fatal :
    (∀ (location shopId : String) (shop? : Option Unit) (images : JSVal)
        (upload : JSVal → Option MediaLink),
      (∃ img ∈ normalizeImages images, upload img = none) →
      (createProduct location shopId shop? images upload).created = none)
    ∧ (∀ (location shopId : String) (images : JSVal)
        (upload : JSVal → Option MediaLink),
      blankString location = false → shopId ≠ "" →
      (∃ img ∈ normalizeImages images, upload img = none) →
      createProduct location shopId (some ()) images upload
        = ⟨errResp 500 "Image upload failed", none⟩) := by
  constructor
  · intro location shopId shop? images upload hfail
    unfold createProduct
    split
    · rfl
    · split
      · rfl
      · cases shop? with
        | none => rfl
        | some u => simp [uploadAll_none_of_mem upload _ hfail]
  · intro location shopId images upload hloc hsid hfail
    unfold createProduct
    rw [if_neg (by simpa using hloc), if_neg (by simpa using hsid)]
    simp [uploadAll_none_of_mem upload _ hfail]

/-- C7 witness: a request with valid location and shop whose single image
upload fails yields the 500 response and persists nothing. -/
theorem createProduct_upload_failure_fatal_witness :
    createProduct "loc" "s1" (some ()) (.str "img1") (fun _ => none)
      = ⟨errResp 500 "Image upload failed", none⟩ :=
  createProduct_upload_failure_fatal.2 "loc" "s1" (.str "img1") (fun _ => none)
    (by decide) (by decide) ⟨.str "img1", by simp [normalizeImages], rfl⟩

theorem updateFirstReview_mem (u : String) (r : ℚ) (c : String) (now : Nat)
    (l : List Review) (h : l.any (fun rev => rev.user == u) = true) :
    ∃ rev ∈ updateFirstReview u r c now l, rev.user = u ∧ rev.rating = r := by
  induction l with
  | nil => simp at h
  | cons a l ih =>
    by_cases ha : (a.user == u) = true
    · refine ⟨{ a with rating := r, comment := c, createdAt := now }, ?_, ?_, rfl⟩
      · simp [updateFirstReview, ha]
      · simpa using ha
    · have hl : l.any (fun rev => rev.user == u) = true := by
        simpa [List.any_cons, ha] using h
      obtain ⟨rev, hm, hp⟩ := ih hl
      exact ⟨rev, by simp [updateFirstReview, ha, hm], hp⟩

/-- C8 counterexample: the claim says every stored rating is an integer, but
a create-new-review call with rating 4.5 (= 9/2) succeeds and stores that
non-integer rating. -/
theorem rating_integrality_counterexample :
    ratNineHalves = 9 / 2
    ∧ ((createNewReview (.num ratNineHalves) "d" exPid exOid "u1" 13 (some exProd0)
        (some exOrd0)).resp.success = true)
    ∧ ((createNewReview (.num ratNineHalves) "d" exPid exOid "u1" 13 (some exProd0)
        (some exOrd0)).product.map (fun p => p.reviews.map Review.rating)
        = some [ratNineHalves])
    ∧ ¬ ∃ n : ℤ, ratNineHalves = (n : ℚ) := by
  have hval : ratNineHalves = 9 / 2 := by
    rw [ratNineHalves, Rat.mk'_eq_divInt, Rat.divInt_eq_div]
    norm_num
  refine ⟨hval, by decide, by decide, ?_⟩
  rintro ⟨n, hn⟩
  have hd := congrArg Rat.den hn
  have h1 : ((n : ℚ) : ℚ).den = 1 := Rat.den_intCast n
  rw [h1] at hd
  exact absurd hd (by decide)

/-- C8 amended: every rating accepted and stored by create-new-review (and
hence every rating contributing to the aggregated `ratings` field) is a
number r with 1 ≤ r ≤ 5; integrality is NOT enforced — the handler accepts
any number in range, so non-integer ratings can be persisted. -/
theorem createNewReview_rating_bounds (rating : JSVal) (comment pid oid u : String)
    (now : Nat) (p? : Option Product) (o? : Option Order)
    (h : (createNewReview rating comment pid oid u now p? o?).resp.success = true) :
    ∃ r : ℚ, rating = .num r ∧ 1 ≤ r ∧ r ≤ 5
      ∧ ∃ p' : Product,
          (createNewReview rating comment pid oid u now p? o?).product = some p'
          ∧ ∃ rev ∈ p'.reviews, rev.user = u ∧ rev.rating = r := by
  obtain ⟨r, p, o, hrat, hr1, hr5, hp, ho, heq⟩ :=
    createNewReview_success_shape rating comment pid oid u now p? o? h
  refine ⟨r, hrat, hr1, hr5, ?_⟩
  rw [heq]
  refine ⟨(submitCore r comment pid u now p o).1, rfl, ?_⟩
  unfold submitCore
  by_cases hany : p.reviews.any (fun rev => rev.user == u) = true
  · simpa [hany] using updateFirstReview_mem u r comment now p.reviews hany
  · simp only [Bool.not_eq_true] at hany
    refine ⟨⟨u, r, comment, pid, now⟩, ?_, rfl, rfl⟩
    simp [hany]

/-- C8 amended witness: a successful call with rating 3 stores a review by
the caller with rating 3, and 3 lies in [1,5]. -/
theorem createNewReview_rating_bounds_witness :
    ∃ r : ℚ, JSVal.num 3 = .num r ∧ 1 ≤ r ∧ r ≤ 5
      ∧ ∃ p' : Product,
          (createNewReview (.num 3) "c" exPid exOid "u1" 7 (some exProd0)
            (some exOrd0)).product = some p'
          ∧ ∃ rev ∈ p'.reviews, rev.user = "u1" ∧ rev.rating = r :=
  createNewReview_rating_bounds (.num 3) "c" exPid exOid "u1" 7 (some exProd0)
    (some exOrd0) (by decide)

theorem voteHelpful_up (rid : JSVal) (lookup : JSVal → Option PublicReviewDoc)
    (rev : PublicReviewDoc) (hrid : falsy rid = false) (hl : lookup rid = some rev) :
    voteHelpful rid (.str "up") lookup
      = ⟨okResp 200 "Vote recorded",
         some { rev with helpfulUp := some (rev.helpfulUp.getD 0 + 1) }, true⟩ := by
  simp [voteHelpful, hrid, show falsy (.str "up") = false from rfl,
    show isUpDownVote (.str "up") = true from rfl, hl]

theorem voteHelpful_down (rid : JSVal) (lookup : JSVal → Option PublicReviewDoc)
    (rev : PublicReviewDoc) (hrid : falsy rid = false) (hl : lookup rid = some rev) :
    voteHelpful rid (.str "down") lookup
      = ⟨okResp 200 "Vote recorded",
         some { rev with helpfulDown := some (rev.helpfulDown.getD 0 + 1) }, true⟩ := by
  simp [voteHelpful, hrid, show falsy (.str "down") = false from rfl,
    show isUpDownVote (.str "down") = true from rfl, hl]

/-- C9 counterexample: the claim says a reviewId that does not resolve to a
stored review fails NotFound (404); but with an empty (falsy) reviewId and a
valid direction against an empty store, the handler answers 400
"Invalid vote data" without even looking the id up. -/
theorem vote_notfound_counterexample :
    ((fun (_ : JSVal) => (none : Option PublicReviewDoc)) (.str "") = none)
    ∧ (voteHelpful (.str "") (.str "up") (fun _ => none)).resp.status = 400
    ∧ (voteHelpful (.str "") (.str "up") (fun _ => none)).resp.status ≠ 404
    ∧ (voteHelpful (.str "") (.str "up") (fun _ => none)).lookedUp = false := by
  refine ⟨rfl, by decide, by decide, by decide⟩

/-- C9 amended: vote("up") increments exactly `helpfulUp` by one and
vote("down") exactly `helpfulDown` (two "up" votes from 0 yield 2); a
*truthy* reviewId that does not resolve fails NotFound, while a missing or
falsy reviewId fails InvalidVote; and any direction other than exactly
"up"/"down" fails InvalidVote, leaving all counters unchanged (nothing is
saved). -/
theorem voteHelpful_contract :
    (∀ (rid : JSVal) (lookup : JSVal → Option PublicReviewDoc) (rev : PublicReviewDoc),
      falsy rid = false → lookup rid = some rev →
      voteHelpful rid (.str "up") lookup
        = ⟨okResp 200 "Vote recorded",
           some { rev with helpfulUp := some (rev.helpfulUp.getD 0 + 1) }, true⟩)
    ∧ (∀ (rid : JSVal) (lookup : JSVal → Option PublicReviewDoc) (rev : PublicReviewDoc),
      falsy rid = false → lookup rid = some rev →
      voteHelpful rid (.str "down") lookup
        = ⟨okResp 200 "Vote recorded",
           some { rev with helpfulDown := some (rev.helpfulDown.getD 0 + 1) }, true⟩)
    ∧ (∀ (rid v : JSVal) (lookup : JSVal → Option PublicReviewDoc),
      falsy rid = false → isUpDownVote v = true → lookup rid = none →
      voteHelpful rid v lookup = ⟨errResp 404 "Review not found", none, true⟩)
    ∧ (∀ (rid v : JSVal) (lookup : JSVal → Option PublicReviewDoc),
      isUpDownVote v = false →
      voteHelpful rid v lookup = ⟨errResp 400 "Invalid vote data", none, false⟩)
    ∧ (∀ (rid : JSVal) (lookup1 lookup2 : JSVal → Option PublicReviewDoc)
        (rev r1 : PublicReviewDoc),
      falsy rid = false → lookup1 rid = some rev → rev.helpfulUp.getD 0 = 0 →
      (voteHelpful rid (.str "up") lookup1).saved = some r1 →
      lookup2 rid = some r1 →
      ((voteHelpful rid (.str "up") lookup2).saved.map PublicReviewDoc.helpfulUp)
        = some (some 2)) := by
  refine ⟨voteHelpful_up, voteHelpful_down, ?_, ?_, ?_⟩
  · intro rid v lookup hrid hv hl
    have hfv : falsy v = false := by
      cases v <;> simp_all [isUpDownVote, falsy]
      rcases hv with h | h <;> simp [h]
    simp [voteHelpful, hrid, hfv, hv, hl]
  · intro rid v lookup hv
    simp [voteHelpful, hv]
  · intro rid lookup1 lookup2 rev r1 hrid hl1 h0 hsaved hl2
    rw [voteHelpful_up rid lookup1 rev hrid hl1] at hsaved
    have hr1 : r1 = { rev with helpfulUp := some (rev.helpfulUp.getD 0 + 1) } :=
      (Option.some.inj hsaved).symm
    rw [voteHelpful_up rid lookup2 r1 hrid hl2, hr1, h0]
    rfl

/-- C9 amended witness: one "up" vote on a stored review with counters (0,0)
saves the review with `helpfulUp = 1` and `helpfulDown` untouched. -/
theorem voteHelpful_contract_witness :
    voteHelpful (.str "r1") (.str "up")
        (fun _ => some ⟨"n", 3, "c", some 0, some 0⟩)
      = ⟨okResp 200 "Vote recorded", some ⟨"n", 3, "c", some 1, some 0⟩, true⟩ := by
  have h := voteHelpful_contract.1 (.str "r1")
    (fun _ => some ⟨"n", 3, "c", some 0, some 0⟩) ⟨"n", 3, "c", some 0, some 0⟩
    (by decide) rfl
  simpa using h

/-- C10: the vote handler validates the direction before resolving the
review: any request whose direction is not exactly "up" or "down" (including
a missing direction) fails with the 400 invalid-vote response without any
`findById` lookup — so an unknown reviewId together with an invalid
direction yields the 400, never the 404. -/
theorem voteHelpful_direction_validated_first (reviewId vote : JSVal)
    (findById : JSVal → Option PublicReviewDoc)
    (h : isUpDownVote vote = false) :
    voteHelpful reviewId vote findById
      = ⟨errResp 400 "Invalid vote data", none, false⟩ := by
  simp [voteHelpful, h]

/-- C10 witness: an unknown reviewId with direction "sideways" yields the 400
invalid-vote response with no lookup performed. -/
theorem voteHelpful_direction_validated_first_witness :
    voteHelpful (.str "zzz") (.str "sideways") (fun _ => none)
      = ⟨errResp 400 "Invalid vote data", none, false⟩ :=
  voteHelpful_direction_validated_first (.str "zzz") (.str "sideways")
    (fun _ => none) (by decide)

end Haochapchap
